import Mathlib

/-!
Shallow embedding of the pomodoro-study timer application (src/app.js).

The source file contains two variants of the application separated by a
document separator: the first (lines 1-502, embedded here as `VariantA`)
has timer-snapshot persistence, mode validation in `switchMode`, and
clamped settings; the second (lines 503-924, embedded as `VariantB`) has a
task list, an unvalidated `switchMode`, and unclamped settings.

JavaScript numbers that hold integer values (durations in seconds,
epoch-millisecond timestamps, counters) are modelled as `Int`.
`parseInt` results are modelled as `Option Int` (`none` for `NaN`).
DOM, audio and notification dispatch carry no engine state; the only
observable effect the claims mention is that a notification is emitted,
recorded as a `notifyCount` counter.  `localStorage` entries are fields
of the state record (`stored*`).
-/

/-- The three timer modes (keys of the `MODES` object). -/
inductive Mode
  | work
  | shortBreak
  | longBreak
deriving DecidableEq

/-- The string key of a mode, as used in the JavaScript `MODES` object. -/
def modeKey : Mode → String
  | .work => "work"
  | .shortBreak => "shortBreak"
  | .longBreak => "longBreak"

/-- JavaScript `Math.round(d / 60)` for an integer `d`: rounds half toward
positive infinity, i.e. `⌊d / 60 + 1 / 2⌋ = ⌊(2 * d + 60) / 120⌋`. -/
def jsRound60 (d : Int) : Int := Int.fdiv (2 * d + 60) 120

/-- JavaScript `v || d` applied to a `parseInt` result: `NaN` (here `none`)
and `0` are falsy and yield the default `d`. -/
def jsOr (v : Option Int) (d : Int) : Int :=
  match v with
  | none => d
  | some n => if n = 0 then d else n

/-- The `clamp` helper of `saveSettings`: `Math.max(min, Math.min(max, val))`. -/
def clamp (v lo hi : Int) : Int := max lo (min hi v)

/-- Result of `restoreTimerState`: the function returns `"expired"`, `true`
or `false` in the source. -/
inductive RestoreResult
  | expired
  | restored
  | noSnapshot
deriving DecidableEq

namespace VariantA

/-- The persisted `pomodoro_timer_state` entry `{endTimestamp, mode, totalDuration}`. -/
structure Snapshot where
  endTimestamp : Int
  mode : Mode
  totalDuration : Int
deriving DecidableEq

/-- The persisted `pomodoro_settings` entry; a field is `none` when it is
missing or not a number. -/
structure Settings where
  work : Option Int
  shortBreak : Option Int
  longBreak : Option Int
deriving DecidableEq

/-- The engine state of the first variant: the mutable `MODES` durations,
the timer variables, the statistics counters, and the `localStorage`
entries the engine reads and writes. -/
structure State where
  workDur : Int
  shortBreakDur : Int
  longBreakDur : Int
  currentMode : Mode
  timeRemaining : Int
  totalDuration : Int
  isRunning : Bool
  intervalActive : Bool
  sessions : Int
  totalFocusMinutes : Int
  storedSessions : Int
  storedFocusMinutes : Int
  storedSnapshot : Option Snapshot
  storedSettings : Option Settings
  storedDate : Option String
  notifyCount : Nat
deriving DecidableEq

/-- Embeds `MODES[m].duration` under the current (mutable) configuration. -/
def duration (s : State) : Mode → Int
  | .work => s.workDur
  | .shortBreak => s.shortBreakDur
  | .longBreak => s.longBreakDur

/-- The `MODES[mode]` lookup: `some` for the three known keys, `none`
(JavaScript `undefined`) otherwise. -/
def lookupMode (mode : String) : Option Mode :=
  if mode = "work" then some Mode.work
  else if mode = "shortBreak" then some Mode.shortBreak
  else if mode = "longBreak" then some Mode.longBreak
  else none

/-- The `settings.work` validation step of `loadSettings`: apply the field
only when it is a positive number. -/
def applyWorkSetting (cfg : Settings) (s : State) : State :=
  match cfg.work with
  | some w => if 0 < w then { s with workDur := w * 60 } else s
  | none => s

/-- The `settings.shortBreak` validation step of `loadSettings`. -/
def applyShortSetting (cfg : Settings) (s : State) : State :=
  match cfg.shortBreak with
  | some b => if 0 < b then { s with shortBreakDur := b * 60 } else s
  | none => s

/-- The `settings.longBreak` validation step of `loadSettings`. -/
def applyLongSetting (cfg : Settings) (s : State) : State :=
  match cfg.longBreak with
  | some b => if 0 < b then { s with longBreakDur := b * 60 } else s
  | none => s

/-- Embeds `loadSettings()`: applies each stored settings field that is a
positive number; a missing or corrupted entry leaves the defaults. -/
def loadSettings (s : State) : State :=
  match s.storedSettings with
  | none => s
  | some cfg => applyLongSetting cfg (applyShortSetting cfg (applyWorkSetting cfg s))

/-- Embeds `checkDailyReset()`: zero the statistics and persist the new date when
the stored date differs from today. -/
def checkDailyReset (today : String) (s : State) : State :=
  if s.storedDate ≠ some today then
    { s with sessions := 0, totalFocusMinutes := 0,
             storedDate := some today, storedSessions := 0,
             storedFocusMinutes := 0 }
  else s

/-- Embeds `saveTimerState()`: while running, persist
`{endTimestamp := now + timeRemaining * 1000, mode, totalDuration}`. -/
def saveTimerState (now : Int) (s : State) : State :=
  if s.isRunning then
    let sn : Snapshot :=
      { endTimestamp := now + s.timeRemaining * 1000,
        mode := s.currentMode, totalDuration := s.totalDuration }
    { s with storedSnapshot := some sn }
  else s

/-- Embeds `clearTimerState()`: remove the persisted snapshot. -/
def clearTimerState (s : State) : State :=
  { s with storedSnapshot := none }

/-- Embeds `pause()`: stop running, clear the interval, clear the persisted
snapshot. -/
def pause (s : State) : State :=
  { s with isRunning := false, intervalActive := false, storedSnapshot := none }

/-- Embeds `switchMode(mode)`: reject unknown keys with only a warning; for a
known key set `currentMode`, recompute `totalDuration` from the mode's
configured duration and reset `timeRemaining`. -/
def switchMode (mode : String) (s : State) : State :=
  match lookupMode mode with
  | none => s
  | some m =>
    { s with currentMode := m, totalDuration := duration s m,
             timeRemaining := duration s m }

/-- Embeds `completeSession()`: pause, play the chime, then on a work completion
update and persist the statistics, switch to the computed break and
notify; on a break completion switch back to work and notify. -/
def completeSession (s : State) : State :=
  let s0 := pause s
  if s0.currentMode = Mode.work then
    let s1 := { s0 with sessions := s0.sessions + 1 }
    let s2 := { s1 with totalFocusMinutes :=
                  s1.totalFocusMinutes + jsRound60 s1.workDur }
    let s3 := { s2 with storedSessions := s2.sessions,
                        storedFocusMinutes := s2.totalFocusMinutes }
    let nextMode := if s3.sessions % 4 = 0 then "longBreak" else "shortBreak"
    let s4 := switchMode nextMode s3
    { s4 with notifyCount := s4.notifyCount + 1 }
  else
    let s1 := switchMode "work" s0
    { s1 with notifyCount := s1.notifyCount + 1 }

/-- Embeds `tick()`: decrement `timeRemaining`, refresh the display, and complete
the session when the remaining time has reached zero or below. -/
def tick (s : State) : State :=
  let s1 := { s with timeRemaining := s.timeRemaining - 1 }
  if s1.timeRemaining ≤ 0 then completeSession s1 else s1

/-- Embeds `start()`: when idle, mark running, start the 1-second interval and
persist a snapshot; when already running, toggle to `pause()`. -/
def start (now : Int) (s : State) : State :=
  if s.isRunning = false then
    saveTimerState now { s with isRunning := true, intervalActive := true }
  else pause s

/-- Embeds `reset()`: pause, clear the snapshot and restart the current interval. -/
def reset (s : State) : State :=
  let s1 := clearTimerState (pause s)
  { s1 with timeRemaining := s1.totalDuration }

/-- Embeds `restoreTimerState()`: read the persisted snapshot; when the computed
remaining time is not positive the timer expired while the page was
closed (clear the snapshot, set the expired state); otherwise restore the
running timer.  `state.totalDuration || MODES[state.mode].duration` falls
back to the configured duration when the stored value is falsy. -/
def restoreTimerState (now : Int) (s : State) : State × RestoreResult :=
  match s.storedSnapshot with
  | none => (s, RestoreResult.noSnapshot)
  | some sn =>
    let remaining := Int.fdiv (sn.endTimestamp - now) 1000
    if remaining ≤ 0 then
      ({ s with storedSnapshot := none,
                currentMode := sn.mode,
                totalDuration :=
                  if sn.totalDuration = 0 then duration s sn.mode
                  else sn.totalDuration,
                timeRemaining := 0 }, RestoreResult.expired)
    else
      ({ s with currentMode := sn.mode,
                totalDuration :=
                  if sn.totalDuration = 0 then duration s sn.mode
                  else sn.totalDuration,
                timeRemaining := remaining }, RestoreResult.restored)

/-- Embeds `init()`: load settings, run the daily reset, then restore the timer:
an expired snapshot completes the session immediately, a live one resumes
running with the interval restarted, and otherwise the timer is
initialised from the configured duration of the current mode. -/
def init (today : String) (now : Int) (s : State) : State :=
  let s1 := loadSettings s
  let s2 := checkDailyReset today s1
  match restoreTimerState now s2 with
  | (s3, RestoreResult.expired) => completeSession s3
  | (s3, RestoreResult.restored) =>
      { s3 with isRunning := true, intervalActive := true }
  | (s3, RestoreResult.noSnapshot) =>
      { s3 with timeRemaining := duration s3 s3.currentMode,
                totalDuration := duration s3 s3.currentMode }

/-- Embeds `saveSettings()`: clamp each parsed input (falling back to the default
when zero or non-numeric), apply the new durations, persist the clamped
values, and reset the current interval to the new duration. -/
def saveSettings (w sb lb : Option Int) (s : State) : State :=
  let workMin := clamp (jsOr w 25) 1 120
  let shortMin := clamp (jsOr sb 5) 1 30
  let longMin := clamp (jsOr lb 15) 1 60
  let s1 := { s with workDur := workMin * 60,
                     shortBreakDur := shortMin * 60,
                     longBreakDur := longMin * 60,
                     storedSettings :=
                       some ⟨some workMin, some shortMin, some longMin⟩ }
  { s1 with totalDuration := duration s1 s1.currentMode,
            timeRemaining := duration s1 s1.currentMode }

end VariantA

namespace VariantB

/-- The persisted `pomodoro_settings` entry of the second variant: the raw
`parseInt` results are stored unvalidated (`none` models `NaN`, which
JSON-serialises to `null`). -/
structure Settings where
  work : Option Int
  shortBreak : Option Int
  longBreak : Option Int
deriving DecidableEq

/-- A task of the second variant's task list:
`{id, text, completed, active}`. -/
structure Task where
  id : String
  text : String
  completed : Bool
  active : Bool
deriving DecidableEq

/-- The engine state of the second variant.  `currentMode` is a raw string
because `switchMode` assigns its argument without validating it. -/
structure State where
  workDur : Int
  shortBreakDur : Int
  longBreakDur : Int
  currentMode : String
  timeRemaining : Int
  totalDuration : Int
  isRunning : Bool
  sessions : Int
  totalFocusMinutes : Int
  storedSessions : Int
  storedFocusMinutes : Int
  storedSettings : Option Settings
  notifyCount : Nat
deriving DecidableEq

/-- The `MODES[mode]` duration lookup of the second variant: `none`
models JavaScript `undefined` for an unknown key. -/
def lookupDuration (s : State) (mode : String) : Option Int :=
  if mode = "work" then some s.workDur
  else if mode = "shortBreak" then some s.shortBreakDur
  else if mode = "longBreak" then some s.longBreakDur
  else none

/-- Embeds `updateTimerState()`: reads `MODES[currentMode].duration`.  When
`currentMode` is not a known key, the property access throws a
`TypeError`; the `.error` value carries the state at the throw point. -/
def updateTimerState (s : State) : Except State State :=
  match lookupDuration s s.currentMode with
  | none => Except.error s
  | some d => Except.ok { s with totalDuration := d, timeRemaining := d }

/-- Embeds `switchMode(mode)` of the second variant: assigns `currentMode`
without validation, then calls `updateTimerState()`, which throws for an
unknown mode after `currentMode` has already been mutated. -/
def switchMode (mode : String) (s : State) : Except State State :=
  updateTimerState { s with currentMode := mode }

/-- Embeds `pause()` of the second variant: stop running and clear the interval. -/
def pause (s : State) : State :=
  { s with isRunning := false }

/-- Embeds `completeSession()` of the second variant: pause, play the chime, then
on a work completion update and persist the statistics, notify and switch
to the computed break; on a break completion notify and switch to work. -/
def completeSession (s : State) : Except State State :=
  let s0 := pause s
  if s0.currentMode = "work" then
    let s1 := { s0 with sessions := s0.sessions + 1 }
    let s2 := { s1 with totalFocusMinutes :=
                  s1.totalFocusMinutes + jsRound60 s1.workDur }
    let s3 := { s2 with storedSessions := s2.sessions,
                        storedFocusMinutes := s2.totalFocusMinutes }
    let s4 := { s3 with notifyCount := s3.notifyCount + 1 }
    let nextMode := if s4.sessions % 4 = 0 then "longBreak" else "shortBreak"
    switchMode nextMode s4
  else
    let s1 := { s0 with notifyCount := s0.notifyCount + 1 }
    switchMode "work" s1

/-- Embeds `tick()` of the second variant (textually identical to the first). -/
def tick (s : State) : Except State State :=
  let s1 := { s with timeRemaining := s.timeRemaining - 1 }
  if s1.timeRemaining ≤ 0 then completeSession s1 else Except.ok s1

/-- The `saveSettings` click listener of the second variant: applies
`(parseInt(input) || default) * 60` with no clamping, stores the raw
`parseInt` results, and resets the timer via `updateTimerState()`. -/
def saveSettings (w sb lb : Option Int) (s : State) : Except State State :=
  let s1 := { s with workDur := jsOr w 25 * 60,
                     shortBreakDur := jsOr sb 5 * 60,
                     longBreakDur := jsOr lb 15 * 60,
                     storedSettings := some { work := w, shortBreak := sb,
                                              longBreak := lb } }
  updateTimerState s1

/-- Embeds `setActiveTask(id)`: sets each task's `active` flag to whether its id
equals the chosen id. -/
def setActiveTask (id : String) (tasks : List Task) : List Task :=
  tasks.map fun t => { t with active := t.id == id }

/-- The configured duration of a valid mode in the second variant. -/
def duration (s : State) : Mode → Int
  | .work => s.workDur
  | .shortBreak => s.shortBreakDur
  | .longBreak => s.longBreakDur

/-- The state an `Except` computation ends in, whether it returned
normally or threw. -/
def resultState : Except State State → State
  | Except.ok s => s
  | Except.error s => s

/-- Whether an `Except` computation returned without throwing. -/
def completedOk : Except State State → Bool
  | Except.ok _ => true
  | Except.error _ => false

end VariantB

/-- A fresh default state of the first variant, as after a cold start with
nothing persisted except today's date. -/
def demoA : VariantA.State :=
  { workDur := 1500, shortBreakDur := 300, longBreakDur := 900,
    currentMode := Mode.work, timeRemaining := 1500, totalDuration := 1500,
    isRunning := false, intervalActive := false, sessions := 0,
    totalFocusMinutes := 0, storedSessions := 0, storedFocusMinutes := 0,
    storedSnapshot := none, storedSettings := none,
    storedDate := some "Sun Oct 12 2025", notifyCount := 0 }

/-- A fresh default state of the second variant. -/
def demoB : VariantB.State :=
  { workDur := 1500, shortBreakDur := 300, longBreakDur := 900,
    currentMode := "work", timeRemaining := 1500, totalDuration := 1500,
    isRunning := false, sessions := 0, totalFocusMinutes := 0,
    storedSessions := 0, storedFocusMinutes := 0, storedSettings := none,
    notifyCount := 0 }

/-- A task list holding two distinct tasks that share the same id (ids are
`Date.now().toString()`, so two tasks created within the same millisecond
collide, and `loadTasks` accepts any persisted list). -/
def dupTasks : List VariantB.Task :=
  [{ id := "1700000000000", text := "read", completed := false, active := false },
   { id := "1700000000000", text := "write", completed := false, active := false }]

/-- A snapshot that ended 5 seconds before time 0. -/
def expiredSnap : VariantA.Snapshot :=
  { endTimestamp := -5000, mode := Mode.shortBreak, totalDuration := 300 }

/-- The demo state with the expired snapshot persisted. -/
def expiredState : VariantA.State :=
  { demoA with storedSnapshot := some expiredSnap }

/-- A snapshot that ends 500 ms after time 0: strictly in the future, but
less than one full second away. -/
def subsecSnap : VariantA.Snapshot :=
  { endTimestamp := 500, mode := Mode.shortBreak, totalDuration := 300 }

/-- The demo state with the sub-second-future snapshot persisted. -/
def subsecState : VariantA.State :=
  { demoA with storedSnapshot := some subsecSnap }

/-- A snapshot that ends 10.5 seconds after time 0. -/
def futureSnap : VariantA.Snapshot :=
  { endTimestamp := 10500, mode := Mode.shortBreak, totalDuration := 300 }

/-- The demo state with the 10.5-second-future snapshot persisted. -/
def futureState : VariantA.State :=
  { demoA with storedSnapshot := some futureSnap }

/-- The state of the first variant at script load on a cold start (nothing
running): the top-level declarations set the default `MODES`, the default
timer fields, and read the persisted counters; the persisted entries are
whatever the store holds. -/
def coldState (sessN focusN : Int) (cfg : Option VariantA.Settings)
    (d : Option String) : VariantA.State :=
  { workDur := 1500, shortBreakDur := 300, longBreakDur := 900,
    currentMode := Mode.work, timeRemaining := 1500, totalDuration := 1500,
    isRunning := false, intervalActive := false, sessions := sessN,
    totalFocusMinutes := focusN, storedSessions := sessN,
    storedFocusMinutes := focusN, storedSnapshot := none,
    storedSettings := cfg, storedDate := d, notifyCount := 0 }

/-- The state of the first variant at script load after a page reload:
volatile state is re-initialised by the top-level declarations while the
persisted entries (snapshot, settings, date, counters) survive. -/
def reloadState (s : VariantA.State) : VariantA.State :=
  { s with workDur := 1500, shortBreakDur := 300, longBreakDur := 900,
           currentMode := Mode.work, timeRemaining := 1500,
           totalDuration := 1500, isRunning := false, intervalActive := false,
           sessions := s.storedSessions,
           totalFocusMinutes := s.storedFocusMinutes, notifyCount := 0 }

/-- The states of the first variant reachable by the engine's operations,
indexed by the current wall-clock time in epoch milliseconds: a cold
start, a page reload at a later time, the start/pause toggle, a mode
button click (which pauses then switches to the button's mode string),
reset, a timer tick while running, opening the settings modal (which
pauses), saving settings, and session completion; time can also elapse
with the state unchanged. -/
inductive Reachable : Int → VariantA.State → Prop
  | cold (today : String) (now sessN focusN : Int)
      (cfg : Option VariantA.Settings) (d : Option String) :
      Reachable now (VariantA.init today now (coldState sessN focusN cfg d))
  | elapse {t s} (t' : Int) : Reachable t s → t ≤ t' → Reachable t' s
  | reload {t s} (today : String) (t' : Int) : Reachable t s → t ≤ t' →
      Reachable t' (VariantA.init today t' (reloadState s))
  | startClick {t s} : Reachable t s → Reachable t (VariantA.start t s)
  | modeClick {t s} (mode : String) : Reachable t s →
      Reachable t (VariantA.switchMode mode (VariantA.pause s))
  | resetClick {t s} : Reachable t s → Reachable t (VariantA.reset s)
  | timerTick {t s} : Reachable t s → s.isRunning = true →
      Reachable t (VariantA.tick s)
  | settingsOpen {t s} : Reachable t s → Reachable t (VariantA.pause s)
  | settingsSave {t s} (w sb lb : Option Int) : Reachable t s →
      Reachable t (VariantA.saveSettings w sb lb s)
  | sessionComplete {t s} : Reachable t s → Reachable t (VariantA.completeSession s)

/-- The timer invariant at wall-clock time t: configured durations are
positive, the remaining time is positive and bounded by the interval's
total duration, and any persisted snapshot has a positive duration and an
end timestamp no further in the future than that duration. -/
def TimerInv (t : Int) (s : VariantA.State) : Prop :=
  0 < s.workDur ∧ 0 < s.shortBreakDur ∧ 0 < s.longBreakDur ∧
  1 ≤ s.timeRemaining ∧ s.timeRemaining ≤ s.totalDuration ∧
  ∀ sn, s.storedSnapshot = some sn →
    0 < sn.totalDuration ∧ sn.endTimestamp ≤ t + sn.totalDuration * 1000

lemma clamp_lower (v lo hi : Int) : lo ≤ clamp v lo hi :=
  le_max_left lo (min hi v)

lemma clamp_upper (v lo hi : Int) (h : lo ≤ hi) : clamp v lo hi ≤ hi :=
  max_le h (min_le_left hi v)

lemma clamp_of_mem (v lo hi : Int) (h1 : lo ≤ v) (h2 : v ≤ hi) :
    clamp v lo hi = v := by
  unfold clamp
  rw [min_eq_right h2, max_eq_right h1]

lemma clamp_of_ge (v lo hi : Int) (hlo : lo ≤ hi) (h : hi ≤ v) :
    clamp v lo hi = hi := by
  unfold clamp
  rw [min_eq_left h, max_eq_right hlo]

lemma lookupMode_modeKey (m : Mode) :
    VariantA.lookupMode (modeKey m) = some m := by
  cases m <;> rfl

lemma lookupDuration_modeKey (s : VariantB.State) (m : Mode) :
    VariantB.lookupDuration s (modeKey m) = some (VariantB.duration s m) := by
  cases m <;> rfl

lemma switchModeA_sessions (mode : String) (s : VariantA.State) :
    (VariantA.switchMode mode s).sessions = s.sessions := by
  unfold VariantA.switchMode; split <;> rfl

lemma switchModeA_totalFocusMinutes (mode : String) (s : VariantA.State) :
    (VariantA.switchMode mode s).totalFocusMinutes = s.totalFocusMinutes := by
  unfold VariantA.switchMode; split <;> rfl

lemma switchModeA_storedSessions (mode : String) (s : VariantA.State) :
    (VariantA.switchMode mode s).storedSessions = s.storedSessions := by
  unfold VariantA.switchMode; split <;> rfl

lemma switchModeA_storedFocusMinutes (mode : String) (s : VariantA.State) :
    (VariantA.switchMode mode s).storedFocusMinutes = s.storedFocusMinutes := by
  unfold VariantA.switchMode; split <;> rfl

lemma switchModeA_storedSnapshot (mode : String) (s : VariantA.State) :
    (VariantA.switchMode mode s).storedSnapshot = s.storedSnapshot := by
  unfold VariantA.switchMode; split <;> rfl

lemma switchModeA_notifyCount (mode : String) (s : VariantA.State) :
    (VariantA.switchMode mode s).notifyCount = s.notifyCount := by
  unfold VariantA.switchMode; split <;> rfl

lemma applyWorkSetting_storedSnapshot (cfg : VariantA.Settings) (s : VariantA.State) :
    (VariantA.applyWorkSetting cfg s).storedSnapshot = s.storedSnapshot := by
  unfold VariantA.applyWorkSetting
  split
  · split <;> rfl
  · rfl

lemma applyShortSetting_storedSnapshot (cfg : VariantA.Settings) (s : VariantA.State) :
    (VariantA.applyShortSetting cfg s).storedSnapshot = s.storedSnapshot := by
  unfold VariantA.applyShortSetting
  split
  · split <;> rfl
  · rfl

lemma applyLongSetting_storedSnapshot (cfg : VariantA.Settings) (s : VariantA.State) :
    (VariantA.applyLongSetting cfg s).storedSnapshot = s.storedSnapshot := by
  unfold VariantA.applyLongSetting
  split
  · split <;> rfl
  · rfl

lemma loadSettings_storedSnapshot (s : VariantA.State) :
    (VariantA.loadSettings s).storedSnapshot = s.storedSnapshot := by
  unfold VariantA.loadSettings
  split
  · rfl
  · rw [applyLongSetting_storedSnapshot, applyShortSetting_storedSnapshot,
        applyWorkSetting_storedSnapshot]

lemma applyWorkSetting_notifyCount (cfg : VariantA.Settings) (s : VariantA.State) :
    (VariantA.applyWorkSetting cfg s).notifyCount = s.notifyCount := by
  unfold VariantA.applyWorkSetting
  split
  · split <;> rfl
  · rfl

lemma applyShortSetting_notifyCount (cfg : VariantA.Settings) (s : VariantA.State) :
    (VariantA.applyShortSetting cfg s).notifyCount = s.notifyCount := by
  unfold VariantA.applyShortSetting
  split
  · split <;> rfl
  · rfl

lemma applyLongSetting_notifyCount (cfg : VariantA.Settings) (s : VariantA.State) :
    (VariantA.applyLongSetting cfg s).notifyCount = s.notifyCount := by
  unfold VariantA.applyLongSetting
  split
  · split <;> rfl
  · rfl

lemma loadSettings_notifyCount (s : VariantA.State) :
    (VariantA.loadSettings s).notifyCount = s.notifyCount := by
  unfold VariantA.loadSettings
  split
  · rfl
  · rw [applyLongSetting_notifyCount, applyShortSetting_notifyCount,
        applyWorkSetting_notifyCount]

lemma checkDailyReset_storedSnapshot (today : String) (s : VariantA.State) :
    (VariantA.checkDailyReset today s).storedSnapshot = s.storedSnapshot := by
  unfold VariantA.checkDailyReset
  split <;> rfl

lemma checkDailyReset_notifyCount (today : String) (s : VariantA.State) :
    (VariantA.checkDailyReset today s).notifyCount = s.notifyCount := by
  unfold VariantA.checkDailyReset
  split <;> rfl

lemma completeSessionA_notifyCount (s : VariantA.State) :
    (VariantA.completeSession s).notifyCount = s.notifyCount + 1 := by
  by_cases hm : s.currentMode = Mode.work <;>
    simp [VariantA.completeSession, VariantA.pause, hm, switchModeA_notifyCount]

lemma completeSessionA_storedSnapshot (s : VariantA.State) :
    (VariantA.completeSession s).storedSnapshot = none := by
  by_cases hm : s.currentMode = Mode.work <;>
    simp [VariantA.completeSession, VariantA.pause, hm, switchModeA_storedSnapshot]

/-- C9: calling pause twice in a row produces exactly the same state as
calling it once, in both variants. -/
theorem pause_idempotent :
    (∀ s : VariantA.State, VariantA.pause (VariantA.pause s) = VariantA.pause s) ∧
    (∀ s : VariantB.State, VariantB.pause (VariantB.pause s) = VariantB.pause s) :=
  ⟨fun _ => rfl, fun _ => rfl⟩

/-- C5: for every valid mode m, switchMode(m) sets currentMode to m and
timeRemaining = totalDuration = the duration currently configured for m,
in both variants. -/
theorem switchMode_valid_postcondition :
    (∀ (s : VariantA.State) (m : Mode),
      (VariantA.switchMode (modeKey m) s).currentMode = m ∧
      (VariantA.switchMode (modeKey m) s).timeRemaining =
        (VariantA.switchMode (modeKey m) s).totalDuration ∧
      (VariantA.switchMode (modeKey m) s).totalDuration = VariantA.duration s m) ∧
    (∀ (s : VariantB.State) (m : Mode),
      VariantB.completedOk (VariantB.switchMode (modeKey m) s) = true ∧
      (VariantB.resultState (VariantB.switchMode (modeKey m) s)).currentMode = modeKey m ∧
      (VariantB.resultState (VariantB.switchMode (modeKey m) s)).timeRemaining =
        (VariantB.resultState (VariantB.switchMode (modeKey m) s)).totalDuration ∧
      (VariantB.resultState (VariantB.switchMode (modeKey m) s)).totalDuration =
        VariantB.duration s m) := by
  constructor
  · intro s m
    simp [VariantA.switchMode, lookupMode_modeKey]
  · intro s m
    cases m <;>
      simp [VariantB.switchMode, VariantB.updateTimerState, VariantB.lookupDuration,
            VariantB.completedOk, VariantB.resultState, VariantB.duration, modeKey]

/-- C1: a work-mode completion selects longBreak as the next mode exactly
when the incremented sessions counter is divisible by 4 and shortBreak
otherwise, a break-mode completion selects work, and in every case
completeSession enters the next mode through switchMode; this holds in
both variants. -/
theorem completeSession_next_mode :
    (∀ s : VariantA.State,
      (s.currentMode = Mode.work →
        (VariantA.completeSession s).currentMode =
          (if (s.sessions + 1) % 4 = 0 then Mode.longBreak else Mode.shortBreak) ∧
        VariantA.completeSession s =
          { VariantA.switchMode
              (if (s.sessions + 1) % 4 = 0 then "longBreak" else "shortBreak")
              (VariantA.pause s) with
            sessions := s.sessions + 1,
            totalFocusMinutes := s.totalFocusMinutes + jsRound60 s.workDur,
            storedSessions := s.sessions + 1,
            storedFocusMinutes := s.totalFocusMinutes + jsRound60 s.workDur,
            notifyCount := s.notifyCount + 1 }) ∧
      (s.currentMode ≠ Mode.work →
        (VariantA.completeSession s).currentMode = Mode.work ∧
        VariantA.completeSession s =
          { VariantA.switchMode "work" (VariantA.pause s) with
            notifyCount := s.notifyCount + 1 })) ∧
    (∀ s : VariantB.State,
      (s.currentMode = "work" →
        VariantB.completeSession s =
          VariantB.switchMode
            (if (s.sessions + 1) % 4 = 0 then "longBreak" else "shortBreak")
            { VariantB.pause s with
              sessions := s.sessions + 1,
              totalFocusMinutes := s.totalFocusMinutes + jsRound60 s.workDur,
              storedSessions := s.sessions + 1,
              storedFocusMinutes := s.totalFocusMinutes + jsRound60 s.workDur,
              notifyCount := s.notifyCount + 1 } ∧
        VariantB.completedOk (VariantB.completeSession s) = true ∧
        (VariantB.resultState (VariantB.completeSession s)).currentMode =
          (if (s.sessions + 1) % 4 = 0 then "longBreak" else "shortBreak")) ∧
      (s.currentMode ≠ "work" →
        VariantB.completeSession s =
          VariantB.switchMode "work"
            { VariantB.pause s with notifyCount := s.notifyCount + 1 } ∧
        (VariantB.resultState (VariantB.completeSession s)).currentMode = "work")) := by
  constructor
  · intro s
    constructor
    · intro hm
      by_cases h4 : (s.sessions + 1) % 4 = 0 <;>
        simp [VariantA.completeSession, VariantA.pause, VariantA.switchMode,
              VariantA.lookupMode, VariantA.duration, hm, h4]
    · intro hm
      simp [VariantA.completeSession, VariantA.pause, VariantA.switchMode,
            VariantA.lookupMode, VariantA.duration, hm]
  · intro s
    constructor
    · intro hm
      by_cases h4 : (s.sessions + 1) % 4 = 0 <;>
        simp [VariantB.completeSession, VariantB.pause, VariantB.switchMode,
              VariantB.updateTimerState, VariantB.lookupDuration,
              VariantB.completedOk, VariantB.resultState, hm, h4]
    · intro hm
      simp [VariantB.completeSession, VariantB.pause, VariantB.switchMode,
            VariantB.updateTimerState, VariantB.lookupDuration,
            VariantB.completedOk, VariantB.resultState, hm]

/-- C1 witness: on a fresh state (sessions = 0) a work completion selects
shortBreak in both variants. -/
theorem completeSession_next_mode_witness :
    (VariantA.completeSession demoA).currentMode = Mode.shortBreak ∧
    (VariantB.resultState (VariantB.completeSession demoB)).currentMode = "shortBreak" := by
  have hA := (completeSession_next_mode.1 demoA).1 rfl
  have hB := (completeSession_next_mode.2 demoB).1 rfl
  exact ⟨by rw [hA.1]; decide, by rw [hB.2.2]; decide⟩

/-- C2: a work-mode completion increments sessions by exactly 1 and adds
round(workDurationSeconds / 60) to totalFocusMinutes, computed from the
work duration configured at completion time — replacing the duration that
was captured when the interval started (totalDuration) changes nothing —
and persists both updated counters; this holds in both variants. -/
theorem completeSession_work_statistics :
    (∀ (s : VariantA.State) (d : Int), s.currentMode = Mode.work →
      (VariantA.completeSession s).sessions = s.sessions + 1 ∧
      (VariantA.completeSession s).totalFocusMinutes =
        s.totalFocusMinutes + jsRound60 s.workDur ∧
      (VariantA.completeSession s).storedSessions = s.sessions + 1 ∧
      (VariantA.completeSession s).storedFocusMinutes =
        s.totalFocusMinutes + jsRound60 s.workDur ∧
      (VariantA.completeSession { s with totalDuration := d }).totalFocusMinutes =
        s.totalFocusMinutes + jsRound60 s.workDur) ∧
    (∀ (s : VariantB.State) (d : Int), s.currentMode = "work" →
      (VariantB.resultState (VariantB.completeSession s)).sessions = s.sessions + 1 ∧
      (VariantB.resultState (VariantB.completeSession s)).totalFocusMinutes =
        s.totalFocusMinutes + jsRound60 s.workDur ∧
      (VariantB.resultState (VariantB.completeSession s)).storedSessions =
        s.sessions + 1 ∧
      (VariantB.resultState (VariantB.completeSession s)).storedFocusMinutes =
        s.totalFocusMinutes + jsRound60 s.workDur ∧
      (VariantB.resultState
          (VariantB.completeSession { s with totalDuration := d })).totalFocusMinutes =
        s.totalFocusMinutes + jsRound60 s.workDur) := by
  constructor
  · intro s d hm
    refine ⟨?_, ?_, ?_, ?_, ?_⟩ <;>
      simp [VariantA.completeSession, VariantA.pause, hm,
            switchModeA_sessions, switchModeA_totalFocusMinutes,
            switchModeA_storedSessions, switchModeA_storedFocusMinutes,
            switchModeA_notifyCount]
  · intro s d hm
    refine ⟨?_, ?_, ?_, ?_, ?_⟩ <;>
      · by_cases h4 : (s.sessions + 1) % 4 = 0 <;>
          simp [VariantB.completeSession, VariantB.pause, VariantB.switchMode,
                VariantB.updateTimerState, VariantB.lookupDuration,
                VariantB.resultState, hm, h4]

/-- C2 witness: a work completion on a fresh state (25-minute work
duration) credits 1 session and 25 focus minutes, in both variants. -/
theorem completeSession_work_statistics_witness :
    (VariantA.completeSession demoA).sessions = 1 ∧
    (VariantA.completeSession demoA).totalFocusMinutes = 25 ∧
    (VariantB.resultState (VariantB.completeSession demoB)).totalFocusMinutes = 25 := by
  have hA := completeSession_work_statistics.1 demoA 0 rfl
  have hB := completeSession_work_statistics.2 demoB 0 rfl
  exact ⟨by rw [hA.1]; decide, by rw [hA.2.1]; decide, by rw [hB.2.1]; decide⟩

/-- C6 counterexample: in the second variant, switchMode with an argument
that is not a known mode does not reject it — it overwrites currentMode
with the invalid value and then throws while reading the unknown mode's
duration, so the call neither leaves the state unchanged nor fails with
only a warning. -/
theorem switchModeB_invalid_mutates_state :
    VariantB.completedOk (VariantB.switchMode "lunchBreak" demoB) = false ∧
    (VariantB.resultState (VariantB.switchMode "lunchBreak" demoB)).currentMode =
      "lunchBreak" ∧
    VariantB.resultState (VariantB.switchMode "lunchBreak" demoB) ≠ demoB := by
  refine ⟨rfl, rfl, ?_⟩
  decide

/-- C6 amended: in the first variant, switchMode with an argument that is
not one of the three known modes logs only a warning and leaves the whole
state unchanged; in the second variant switchMode performs no validation:
it sets currentMode to the invalid argument and then throws a TypeError
while reading the unknown mode's duration, leaving the other fields
untouched. -/
theorem switchMode_invalid_mode_behavior (mode : String)
    (hw : mode ≠ "work") (hs : mode ≠ "shortBreak") (hl : mode ≠ "longBreak") :
    (∀ s : VariantA.State, VariantA.switchMode mode s = s) ∧
    (∀ s : VariantB.State,
      VariantB.completedOk (VariantB.switchMode mode s) = false ∧
      VariantB.resultState (VariantB.switchMode mode s) =
        { s with currentMode := mode }) := by
  constructor
  · intro s
    simp [VariantA.switchMode, VariantA.lookupMode, hw, hs, hl]
  · intro s
    constructor <;>
      simp [VariantB.switchMode, VariantB.updateTimerState, VariantB.lookupDuration,
            VariantB.completedOk, VariantB.resultState, hw, hs, hl]

/-- C6 amended witness: a concrete invalid mode string is rejected without
any state change by the first variant's switchMode. -/
theorem switchMode_invalid_mode_behavior_witness :
    VariantA.switchMode "lunchBreak" demoA = demoA ∧
    VariantB.completedOk (VariantB.switchMode "lunchBreak" demoB) = false :=
  ⟨(switchMode_invalid_mode_behavior "lunchBreak" (by decide) (by decide)
      (by decide)).1 demoA,
   ((switchMode_invalid_mode_behavior "lunchBreak" (by decide) (by decide)
      (by decide)).2 demoB).1⟩

/-- C7 counterexample: in the second variant the settings save listener
does not clamp: work-minutes input 9999 is applied as 9999 minutes
(599940 seconds, not the claimed 120-minute cap) and stored raw. -/
theorem saveSettingsB_does_not_clamp :
    (VariantB.resultState
        (VariantB.saveSettings (some 9999) (some 5) (some 15) demoB)).workDur =
      599940 ∧
    (599940 : Int) ≠ 120 * 60 ∧
    (VariantB.resultState
        (VariantB.saveSettings (some 9999) (some 5) (some 15) demoB)).storedSettings =
      some { work := some 9999, shortBreak := some 5, longBreak := some 15 } := by
  refine ⟨rfl, by decide, rfl⟩

/-- C7 amended: in the first variant the stored and applied work duration
is the input clamped to [1, 120] minutes (short break [1, 30], long break
[1, 60]) with zero or non-numeric input falling back to the defaults
25/5/15, and the current interval is reset to the new duration of the
current mode; the second variant applies only the zero-or-non-numeric
default fallback and performs no clamping, storing the raw parsed input. -/
theorem saveSettings_clamping_behavior (w sb lb : Option Int) (s : VariantA.State) :
    (60 ≤ (VariantA.saveSettings w sb lb s).workDur ∧
      (VariantA.saveSettings w sb lb s).workDur ≤ 120 * 60) ∧
    (60 ≤ (VariantA.saveSettings w sb lb s).shortBreakDur ∧
      (VariantA.saveSettings w sb lb s).shortBreakDur ≤ 30 * 60) ∧
    (60 ≤ (VariantA.saveSettings w sb lb s).longBreakDur ∧
      (VariantA.saveSettings w sb lb s).longBreakDur ≤ 60 * 60) ∧
    (w = none ∨ w = some 0 → (VariantA.saveSettings w sb lb s).workDur = 25 * 60) ∧
    (sb = none ∨ sb = some 0 →
      (VariantA.saveSettings w sb lb s).shortBreakDur = 5 * 60) ∧
    (lb = none ∨ lb = some 0 →
      (VariantA.saveSettings w sb lb s).longBreakDur = 15 * 60) ∧
    (∀ n : Int, w = some n → 1 ≤ n → n ≤ 120 →
      (VariantA.saveSettings w sb lb s).workDur = n * 60) ∧
    (∀ n : Int, w = some n → 120 ≤ n →
      (VariantA.saveSettings w sb lb s).workDur = 120 * 60) ∧
    (VariantA.saveSettings w sb lb s).storedSettings =
      some { work := some (clamp (jsOr w 25) 1 120),
             shortBreak := some (clamp (jsOr sb 5) 1 30),
             longBreak := some (clamp (jsOr lb 15) 1 60) } ∧
    (VariantA.saveSettings w sb lb s).timeRemaining =
      (VariantA.saveSettings w sb lb s).totalDuration ∧
    (VariantA.saveSettings w sb lb s).totalDuration =
      VariantA.duration (VariantA.saveSettings w sb lb s)
        (VariantA.saveSettings w sb lb s).currentMode ∧
    (∀ t : VariantB.State, w = none ∨ w = some 0 →
      (VariantB.resultState (VariantB.saveSettings w sb lb t)).workDur = 25 * 60) ∧
    (∀ (t : VariantB.State) (n : Int), w = some n → n ≠ 0 →
      (VariantB.resultState (VariantB.saveSettings w sb lb t)).workDur = n * 60) := by
  have hBwork : ∀ t : VariantB.State,
      (VariantB.resultState (VariantB.saveSettings w sb lb t)).workDur =
        jsOr w 25 * 60 := by
    intro t
    simp only [VariantB.saveSettings, VariantB.updateTimerState]
    split <;> rfl
  have hmul : ∀ a b : Int, a ≤ b → a * 60 ≤ b * 60 := fun a b h =>
    mul_le_mul_of_nonneg_right h (by norm_num)
  refine ⟨⟨?_, ?_⟩, ⟨?_, ?_⟩, ⟨?_, ?_⟩, ?_, ?_, ?_, ?_, ?_, rfl, ?_, ?_, ?_, ?_⟩
  · exact hmul 1 _ (clamp_lower (jsOr w 25) 1 120)
  · exact hmul _ 120 (clamp_upper (jsOr w 25) 1 120 (by norm_num))
  · exact hmul 1 _ (clamp_lower (jsOr sb 5) 1 30)
  · exact hmul _ 30 (clamp_upper (jsOr sb 5) 1 30 (by norm_num))
  · exact hmul 1 _ (clamp_lower (jsOr lb 15) 1 60)
  · exact hmul _ 60 (clamp_upper (jsOr lb 15) 1 60 (by norm_num))
  · rintro (rfl | rfl) <;>
      simp [VariantA.saveSettings, jsOr, clamp_of_mem 25 1 120 (by norm_num) (by norm_num)]
  · rintro (rfl | rfl) <;>
      simp [VariantA.saveSettings, jsOr, clamp_of_mem 5 1 30 (by norm_num) (by norm_num)]
  · rintro (rfl | rfl) <;>
      simp [VariantA.saveSettings, jsOr, clamp_of_mem 15 1 60 (by norm_num) (by norm_num)]
  · rintro n rfl h1 h2
    have hn : n ≠ 0 := by omega
    simp [VariantA.saveSettings, jsOr, hn, clamp_of_mem n 1 120 h1 h2]
  · rintro n rfl h
    have hn : n ≠ 0 := by omega
    simp [VariantA.saveSettings, jsOr, hn, clamp_of_ge n 1 120 (by norm_num) h]
  · cases s.currentMode <;> rfl
  · cases s.currentMode <;> rfl
  · rintro t (rfl | rfl) <;> rw [hBwork t] <;> rfl
  · rintro t n rfl hn
    rw [hBwork t]
    simp [jsOr, hn]

/-- C7 amended witness: work input 9999 is clamped to 120 minutes and
work input 0 falls back to 25 minutes in the first variant. -/
theorem saveSettings_clamping_behavior_witness :
    (VariantA.saveSettings (some 9999) (some 5) (some 15) demoA).workDur = 120 * 60 ∧
    (VariantA.saveSettings (some 0) (some 5) (some 15) demoA).workDur = 25 * 60 :=
  ⟨(saveSettings_clamping_behavior (some 9999) (some 5) (some 15) demoA).2.2.2.2.2.2.2.1
      9999 rfl (by decide),
   (saveSettings_clamping_behavior (some 0) (some 5) (some 15) demoA).2.2.2.1
      (Or.inr rfl)⟩

/-- C10 counterexample: with two tasks sharing an id that is present in
the list, setActiveTask marks both of them active, so more than one task
is active after the call. -/
theorem setActiveTask_duplicate_id_two_active :
    "1700000000000" ∈ dupTasks.map VariantB.Task.id ∧
    ((VariantB.setActiveTask "1700000000000" dupTasks).filter
        (fun t => t.active)).length = 2 := by
  decide

/-- C10 amended: after setActiveTask(id) each task's active flag equals
whether that task's id equals id; when the tasks' ids are pairwise
distinct, at most one task is marked active afterwards, regardless of how
many were active before. -/
theorem setActiveTask_active_iff_id_match (id : String) (ts : List VariantB.Task) :
    (∀ t ∈ VariantB.setActiveTask id ts, t.active = (t.id == id)) ∧
    ((ts.map VariantB.Task.id).Nodup →
      ((VariantB.setActiveTask id ts).filter (fun t => t.active)).length ≤ 1) := by
  constructor
  · intro t ht
    simp only [VariantB.setActiveTask, List.mem_map] at ht
    obtain ⟨x, -, rfl⟩ := ht
    rfl
  · intro hnd
    have hlen : ((VariantB.setActiveTask id ts).filter (fun t => t.active)).length =
        (ts.map VariantB.Task.id).count id := by
      rw [← List.countP_eq_length_filter]
      unfold VariantB.setActiveTask
      rw [List.countP_map, List.count_eq_countP, List.countP_map]
      rfl
    rw [hlen]
    exact List.nodup_iff_count_le_one.mp hnd id

/-- C10 amended witness: with distinct ids at most one task is active
after setActiveTask, and each flag matches the id comparison. -/
theorem setActiveTask_active_iff_id_match_witness :
    ((VariantB.setActiveTask "2"
        [{ id := "1", text := "read", completed := false, active := true },
         { id := "2", text := "write", completed := true, active := true }]).filter
      (fun t => t.active)).length ≤ 1 :=
  (setActiveTask_active_iff_id_match "2"
      [{ id := "1", text := "read", completed := false, active := true },
       { id := "2", text := "write", completed := true, active := true }]).2
    (by decide)

lemma fdiv_thousand_nonpos {x : Int} (h : x ≤ 0) : Int.fdiv x 1000 ≤ 0 := by
  rw [Int.fdiv_eq_ediv _ (by norm_num)]
  have := Int.ediv_le_ediv (by norm_num : (0 : Int) < 1000) h
  simpa using this

lemma one_le_fdiv_thousand {x : Int} (h : 1000 ≤ x) : 1 ≤ Int.fdiv x 1000 := by
  rw [Int.fdiv_eq_ediv _ (by norm_num)]
  rw [Int.le_ediv_iff_mul_le (by norm_num : (0 : Int) < 1000)]
  omega

/-- C3: restoring a persisted snapshot whose end timestamp is at or before
the current time sets the snapshot's mode and duration with zero time
remaining, clears the persisted snapshot, and performs exactly one
completeSession call, whose single notification and statistics update
happen once; no snapshot remains afterwards. -/
theorem init_expired_snapshot_completes_once
    (today : String) (now : Int) (s : VariantA.State) (sn : VariantA.Snapshot)
    (hsn : s.storedSnapshot = some sn) (hpos : 0 < sn.totalDuration)
    (hexp : sn.endTimestamp ≤ now) :
    VariantA.init today now s =
      VariantA.completeSession
        { VariantA.checkDailyReset today (VariantA.loadSettings s) with
          currentMode := sn.mode, totalDuration := sn.totalDuration,
          timeRemaining := 0, storedSnapshot := none } ∧
    (VariantA.init today now s).storedSnapshot = none ∧
    (VariantA.init today now s).notifyCount = s.notifyCount + 1 := by
  have h2 : (VariantA.checkDailyReset today (VariantA.loadSettings s)).storedSnapshot =
      some sn := by
    rw [checkDailyReset_storedSnapshot, loadSettings_storedSnapshot, hsn]
  have hrem : Int.fdiv (sn.endTimestamp - now) 1000 ≤ 0 :=
    fdiv_thousand_nonpos (by omega)
  have hne : ¬ sn.totalDuration = 0 := by omega
  have hmain : VariantA.init today now s =
      VariantA.completeSession
        { VariantA.checkDailyReset today (VariantA.loadSettings s) with
          currentMode := sn.mode, totalDuration := sn.totalDuration,
          timeRemaining := 0, storedSnapshot := none } := by
    unfold VariantA.init VariantA.restoreTimerState
    simp only [h2, if_pos hrem, if_neg hne]
  refine ⟨hmain, ?_, ?_⟩
  · rw [hmain, completeSessionA_storedSnapshot]
  · rw [hmain, completeSessionA_notifyCount]
    simp [checkDailyReset_notifyCount, loadSettings_notifyCount]

/-- C3 witness: a snapshot that ended 5 seconds before the current time is
completed exactly once on start and leaves no snapshot behind. -/
theorem init_expired_snapshot_completes_once_witness :
    (expiredSnap.endTimestamp ≤ 0 ∧ 0 < expiredSnap.totalDuration) ∧
    (VariantA.init "Sun Oct 12 2025" 0 expiredState).storedSnapshot = none ∧
    (VariantA.init "Sun Oct 12 2025" 0 expiredState).notifyCount = 1 :=
  ⟨⟨by decide, by decide⟩,
   (init_expired_snapshot_completes_once "Sun Oct 12 2025" 0 expiredState
      expiredSnap rfl (by decide) (by decide)).2.1,
   (init_expired_snapshot_completes_once "Sun Oct 12 2025" 0 expiredState
      expiredSnap rfl (by decide) (by decide)).2.2⟩

/-- C4 counterexample: a persisted snapshot whose end timestamp is 500 ms
in the future — strictly after the current time — is not resumed: the
computed remaining time floor((500 - 0) / 1000) is 0, so init takes the
expired path and the timer is left not running with no tick source. -/
theorem init_subsecond_future_snapshot_not_resumed :
    (0 : Int) < subsecSnap.endTimestamp ∧
    (VariantA.init "Sun Oct 12 2025" 0 subsecState).isRunning = false ∧
    (VariantA.init "Sun Oct 12 2025" 0 subsecState).intervalActive = false := by
  refine ⟨by decide, ?_, ?_⟩ <;> decide

/-- C4 amended: for a persisted snapshot with positive totalDuration whose
end timestamp is at least one full second (1000 ms) after the current
time, process start sets timeRemaining to floor((endTimestamp - now) /
1000), restores currentMode and totalDuration from the snapshot, marks
the timer running, and restarts the 1-second tick source automatically. -/
theorem init_future_snapshot_resumes
    (today : String) (now : Int) (s : VariantA.State) (sn : VariantA.Snapshot)
    (hsn : s.storedSnapshot = some sn) (hpos : 0 < sn.totalDuration)
    (hfut : now + 1000 ≤ sn.endTimestamp) :
    VariantA.init today now s =
      { VariantA.checkDailyReset today (VariantA.loadSettings s) with
        currentMode := sn.mode, totalDuration := sn.totalDuration,
        timeRemaining := Int.fdiv (sn.endTimestamp - now) 1000,
        isRunning := true, intervalActive := true } ∧
    1 ≤ Int.fdiv (sn.endTimestamp - now) 1000 ∧
    (VariantA.init today now s).isRunning = true ∧
    (VariantA.init today now s).intervalActive = true := by
  have h2 : (VariantA.checkDailyReset today (VariantA.loadSettings s)).storedSnapshot =
      some sn := by
    rw [checkDailyReset_storedSnapshot, loadSettings_storedSnapshot, hsn]
  have hrem : 1 ≤ Int.fdiv (sn.endTimestamp - now) 1000 :=
    one_le_fdiv_thousand (by omega)
  have hnot : ¬ Int.fdiv (sn.endTimestamp - now) 1000 ≤ 0 := by omega
  have hne : ¬ sn.totalDuration = 0 := by omega
  have hmain : VariantA.init today now s =
      { VariantA.checkDailyReset today (VariantA.loadSettings s) with
        currentMode := sn.mode, totalDuration := sn.totalDuration,
        timeRemaining := Int.fdiv (sn.endTimestamp - now) 1000,
        isRunning := true, intervalActive := true } := by
    unfold VariantA.init VariantA.restoreTimerState
    simp only [h2, if_neg hnot, if_neg hne]
  refine ⟨hmain, hrem, ?_, ?_⟩ <;> rw [hmain]

/-- C4 amended witness: a shortBreak snapshot ending 10.5 seconds in the
future resumes with 10 seconds remaining and the timer running. -/
theorem init_future_snapshot_resumes_witness :
    ((0 : Int) + 1000 ≤ futureSnap.endTimestamp ∧ 0 < futureSnap.totalDuration) ∧
    (VariantA.init "Sun Oct 12 2025" 0 futureState).isRunning = true ∧
    (VariantA.init "Sun Oct 12 2025" 0 futureState).timeRemaining = 10 := by
  have h := init_future_snapshot_resumes "Sun Oct 12 2025" 0 futureState
    futureSnap rfl (by decide) (by decide)
  exact ⟨⟨by decide, by decide⟩, h.2.2.1, by rw [h.1]; decide⟩

lemma switchModeA_workDur (mode : String) (s : VariantA.State) :
    (VariantA.switchMode mode s).workDur = s.workDur := by
  unfold VariantA.switchMode; split <;> rfl

lemma switchModeA_shortBreakDur (mode : String) (s : VariantA.State) :
    (VariantA.switchMode mode s).shortBreakDur = s.shortBreakDur := by
  unfold VariantA.switchMode; split <;> rfl

lemma switchModeA_longBreakDur (mode : String) (s : VariantA.State) :
    (VariantA.switchMode mode s).longBreakDur = s.longBreakDur := by
  unfold VariantA.switchMode; split <;> rfl

lemma completeSessionA_workDur (s : VariantA.State) :
    (VariantA.completeSession s).workDur = s.workDur := by
  by_cases hm : s.currentMode = Mode.work <;>
    simp [VariantA.completeSession, VariantA.pause, hm, switchModeA_workDur]

lemma completeSessionA_shortBreakDur (s : VariantA.State) :
    (VariantA.completeSession s).shortBreakDur = s.shortBreakDur := by
  by_cases hm : s.currentMode = Mode.work <;>
    simp [VariantA.completeSession, VariantA.pause, hm, switchModeA_shortBreakDur]

lemma completeSessionA_longBreakDur (s : VariantA.State) :
    (VariantA.completeSession s).longBreakDur = s.longBreakDur := by
  by_cases hm : s.currentMode = Mode.work <;>
    simp [VariantA.completeSession, VariantA.pause, hm, switchModeA_longBreakDur]

lemma completeSessionA_timer (s : VariantA.State) :
    (VariantA.completeSession s).timeRemaining =
      (VariantA.completeSession s).totalDuration ∧
    ((VariantA.completeSession s).totalDuration = s.workDur ∨
     (VariantA.completeSession s).totalDuration = s.shortBreakDur ∨
     (VariantA.completeSession s).totalDuration = s.longBreakDur) := by
  by_cases hm : s.currentMode = Mode.work
  · by_cases h4 : (s.sessions + 1) % 4 = 0 <;>
      simp [VariantA.completeSession, VariantA.pause, VariantA.switchMode,
            VariantA.lookupMode, VariantA.duration, hm, h4]
  · simp [VariantA.completeSession, VariantA.pause, VariantA.switchMode,
          VariantA.lookupMode, VariantA.duration, hm]

lemma tickA_eq_complete (s : VariantA.State) (h : s.timeRemaining - 1 ≤ 0) :
    VariantA.tick s =
      VariantA.completeSession { s with timeRemaining := s.timeRemaining - 1 } := by
  simp [VariantA.tick, h]

lemma tickA_eq_decrement (s : VariantA.State) (h : ¬ s.timeRemaining - 1 ≤ 0) :
    VariantA.tick s = { s with timeRemaining := s.timeRemaining - 1 } := by
  simp [VariantA.tick, h]

lemma checkDailyReset_workDur (today : String) (s : VariantA.State) :
    (VariantA.checkDailyReset today s).workDur = s.workDur := by
  unfold VariantA.checkDailyReset; split <;> rfl

lemma checkDailyReset_shortBreakDur (today : String) (s : VariantA.State) :
    (VariantA.checkDailyReset today s).shortBreakDur = s.shortBreakDur := by
  unfold VariantA.checkDailyReset; split <;> rfl

lemma checkDailyReset_longBreakDur (today : String) (s : VariantA.State) :
    (VariantA.checkDailyReset today s).longBreakDur = s.longBreakDur := by
  unfold VariantA.checkDailyReset; split <;> rfl

lemma loadSettings_pos (s : VariantA.State) (hw : 0 < s.workDur)
    (hs : 0 < s.shortBreakDur) (hl : 0 < s.longBreakDur) :
    0 < (VariantA.loadSettings s).workDur ∧
    0 < (VariantA.loadSettings s).shortBreakDur ∧
    0 < (VariantA.loadSettings s).longBreakDur := by
  unfold VariantA.loadSettings
  split
  · exact ⟨hw, hs, hl⟩
  · rename_i cfg hcfg
    rcases cfg with ⟨cw, cs, cl⟩
    rcases cw with _ | w <;> rcases cs with _ | b <;> rcases cl with _ | c <;>
      simp only [VariantA.applyWorkSetting, VariantA.applyShortSetting,
                 VariantA.applyLongSetting] <;>
      (try split_ifs) <;> (try simp) <;> omega

lemma pauseA_inv {t : Int} {s : VariantA.State} (h : TimerInv t s) :
    TimerInv t (VariantA.pause s) := by
  obtain ⟨h1, h2, h3, h4, h5, -⟩ := h
  refine ⟨h1, h2, h3, h4, h5, ?_⟩
  intro sn hsn
  simp [VariantA.pause] at hsn

lemma switchModeA_inv {t : Int} {s : VariantA.State} (mode : String)
    (h : TimerInv t s) : TimerInv t (VariantA.switchMode mode s) := by
  obtain ⟨h1, h2, h3, h4, h5, h6⟩ := h
  unfold VariantA.switchMode
  split
  · exact ⟨h1, h2, h3, h4, h5, h6⟩
  · rename_i m hm
    refine ⟨h1, h2, h3, ?_, le_refl _, ?_⟩
    · cases m <;> simp [VariantA.duration] <;> omega
    · intro sn hsn
      exact h6 sn hsn

lemma completeSessionA_inv {t : Int} {s : VariantA.State}
    (hw : 0 < s.workDur) (hs : 0 < s.shortBreakDur) (hl : 0 < s.longBreakDur) :
    TimerInv t (VariantA.completeSession s) := by
  obtain ⟨heq, hdisj⟩ := completeSessionA_timer s
  refine ⟨?_, ?_, ?_, ?_, le_of_eq heq, ?_⟩
  · rw [completeSessionA_workDur]; exact hw
  · rw [completeSessionA_shortBreakDur]; exact hs
  · rw [completeSessionA_longBreakDur]; exact hl
  · rw [heq]
    rcases hdisj with h | h | h <;> rw [h] <;> omega
  · intro sn hsn
    rw [completeSessionA_storedSnapshot] at hsn
    cases hsn

lemma tickA_inv {t : Int} {s : VariantA.State} (h : TimerInv t s) :
    TimerInv t (VariantA.tick s) := by
  obtain ⟨h1, h2, h3, h4, h5, h6⟩ := h
  by_cases hz : s.timeRemaining - 1 ≤ 0
  · rw [tickA_eq_complete s hz]
    exact completeSessionA_inv h1 h2 h3
  · rw [tickA_eq_decrement s hz]
    refine ⟨h1, h2, h3, by simp; omega, by simp; omega, ?_⟩
    intro sn hsn
    exact h6 sn hsn

lemma startA_inv {t : Int} {s : VariantA.State} (h : TimerInv t s) :
    TimerInv t (VariantA.start t s) := by
  obtain ⟨h1, h2, h3, h4, h5, h6⟩ := h
  by_cases hr : s.isRunning = false
  · have heq : VariantA.start t s =
        { s with isRunning := true, intervalActive := true,
                 storedSnapshot := some
                   { endTimestamp := t + s.timeRemaining * 1000,
                     mode := s.currentMode,
                     totalDuration := s.totalDuration } } := by
      simp [VariantA.start, VariantA.saveTimerState, hr]
    rw [heq]
    refine ⟨h1, h2, h3, h4, h5, ?_⟩
    intro sn hsn
    simp only [Option.some.injEq] at hsn
    rw [← hsn]
    constructor
    · simp; omega
    · have := mul_le_mul_of_nonneg_right h5 (by norm_num : (0 : Int) ≤ 1000)
      simp
      omega
  · have hr' : s.isRunning = true := by revert hr; cases s.isRunning <;> simp
    have heq : VariantA.start t s = VariantA.pause s := by
      simp [VariantA.start, hr']
    rw [heq]
    exact pauseA_inv ⟨h1, h2, h3, h4, h5, h6⟩

lemma resetA_inv {t : Int} {s : VariantA.State} (h : TimerInv t s) :
    TimerInv t (VariantA.reset s) := by
  obtain ⟨h1, h2, h3, h4, h5, -⟩ := h
  have heq : VariantA.reset s =
      { s with isRunning := false, intervalActive := false,
               storedSnapshot := none, timeRemaining := s.totalDuration } := by
    simp [VariantA.reset, VariantA.pause, VariantA.clearTimerState]
  rw [heq]
  refine ⟨h1, h2, h3, by simp; omega, by simp, ?_⟩
  intro sn hsn
  simp at hsn

lemma saveSettingsA_inv {t : Int} {s : VariantA.State} (w sb lb : Option Int)
    (h : TimerInv t s) : TimerInv t (VariantA.saveSettings w sb lb s) := by
  obtain ⟨-, -, -, -, -, h6⟩ := h
  have c1 : 1 ≤ clamp (jsOr w 25) 1 120 := clamp_lower _ _ _
  have c2 : 1 ≤ clamp (jsOr sb 5) 1 30 := clamp_lower _ _ _
  have c3 : 1 ≤ clamp (jsOr lb 15) 1 60 := clamp_lower _ _ _
  cases hm : s.currentMode <;>
    · refine ⟨?_, ?_, ?_, ?_, ?_, ?_⟩ <;>
        simp [VariantA.saveSettings, VariantA.duration, hm] <;>
        first
          | omega
          | (intro sn hsn; exact h6 sn hsn)

lemma timerInv_mono {t t' : Int} {s : VariantA.State} (h : TimerInv t s)
    (hle : t ≤ t') : TimerInv t' s := by
  obtain ⟨h1, h2, h3, h4, h5, h6⟩ := h
  refine ⟨h1, h2, h3, h4, h5, ?_⟩
  intro sn hsn
  obtain ⟨p1, p2⟩ := h6 sn hsn
  exact ⟨p1, by omega⟩

lemma initA_inv (today : String) (now : Int) (s : VariantA.State)
    (hw : 0 < s.workDur) (hs : 0 < s.shortBreakDur) (hl : 0 < s.longBreakDur)
    (hsn : ∀ sn, s.storedSnapshot = some sn →
      0 < sn.totalDuration ∧ sn.endTimestamp ≤ now + sn.totalDuration * 1000) :
    TimerInv now (VariantA.init today now s) := by
  obtain ⟨d1, d2, d3⟩ := loadSettings_pos s hw hs hl
  have hw2 : 0 < (VariantA.checkDailyReset today (VariantA.loadSettings s)).workDur := by
    rw [checkDailyReset_workDur]; exact d1
  have hs2 : 0 <
      (VariantA.checkDailyReset today (VariantA.loadSettings s)).shortBreakDur := by
    rw [checkDailyReset_shortBreakDur]; exact d2
  have hl2 : 0 <
      (VariantA.checkDailyReset today (VariantA.loadSettings s)).longBreakDur := by
    rw [checkDailyReset_longBreakDur]; exact d3
  cases hstore : s.storedSnapshot with
  | none =>
    have h0 : (VariantA.checkDailyReset today
        (VariantA.loadSettings s)).storedSnapshot = none := by
      rw [checkDailyReset_storedSnapshot, loadSettings_storedSnapshot, hstore]
    have heq : VariantA.init today now s =
        { VariantA.checkDailyReset today (VariantA.loadSettings s) with
          timeRemaining :=
            VariantA.duration (VariantA.checkDailyReset today (VariantA.loadSettings s))
              (VariantA.checkDailyReset today (VariantA.loadSettings s)).currentMode,
          totalDuration :=
            VariantA.duration (VariantA.checkDailyReset today (VariantA.loadSettings s))
              (VariantA.checkDailyReset today (VariantA.loadSettings s)).currentMode } := by
      unfold VariantA.init VariantA.restoreTimerState
      simp only [h0]
    rw [heq]
    refine ⟨hw2, hs2, hl2, ?_, le_refl _, ?_⟩
    · cases (VariantA.checkDailyReset today (VariantA.loadSettings s)).currentMode <;>
        simp [VariantA.duration] <;> omega
    · intro sn hsn
      have hss : (VariantA.checkDailyReset today
          (VariantA.loadSettings s)).storedSnapshot = some sn := hsn
      rw [h0] at hss
      cases hss
  | some sn =>
    obtain ⟨p1, p2⟩ := hsn sn hstore
    have h0 : (VariantA.checkDailyReset today
        (VariantA.loadSettings s)).storedSnapshot = some sn := by
      rw [checkDailyReset_storedSnapshot, loadSettings_storedSnapshot, hstore]
    have hne : ¬ sn.totalDuration = 0 := by omega
    by_cases hrem : Int.fdiv (sn.endTimestamp - now) 1000 ≤ 0
    · have heq : VariantA.init today now s =
          VariantA.completeSession
            { VariantA.checkDailyReset today (VariantA.loadSettings s) with
              currentMode := sn.mode, totalDuration := sn.totalDuration,
              timeRemaining := 0, storedSnapshot := none } := by
        unfold VariantA.init VariantA.restoreTimerState
        simp only [h0, if_pos hrem, if_neg hne]
      rw [heq]
      exact completeSessionA_inv hw2 hs2 hl2
    · have heq : VariantA.init today now s =
          { VariantA.checkDailyReset today (VariantA.loadSettings s) with
            currentMode := sn.mode, totalDuration := sn.totalDuration,
            timeRemaining := Int.fdiv (sn.endTimestamp - now) 1000,
            isRunning := true, intervalActive := true } := by
        unfold VariantA.init VariantA.restoreTimerState
        simp only [h0, if_neg hrem, if_neg hne]
      rw [heq]
      refine ⟨hw2, hs2, hl2, by simp; omega, ?_, ?_⟩
      · show Int.fdiv (sn.endTimestamp - now) 1000 ≤ sn.totalDuration
        rw [Int.fdiv_eq_ediv _ (by norm_num)]
        have hle : sn.endTimestamp - now ≤ sn.totalDuration * 1000 := by omega
        have hdiv := Int.ediv_le_ediv (by norm_num : (0 : Int) < 1000) hle
        rwa [Int.mul_ediv_cancel _ (by norm_num)] at hdiv
      · intro sn' hsn'
        have hss : (VariantA.checkDailyReset today
            (VariantA.loadSettings s)).storedSnapshot = some sn' := hsn'
        rw [h0] at hss
        cases hss
        exact ⟨p1, p2⟩

lemma reachable_inv {t : Int} {s : VariantA.State} (h : Reachable t s) :
    TimerInv t s := by
  induction h with
  | cold today now sessN focusN cfg d =>
    apply initA_inv
    · show (0 : Int) < 1500; norm_num
    · show (0 : Int) < 300; norm_num
    · show (0 : Int) < 900; norm_num
    · intro sn hsn
      simp [coldState] at hsn
  | elapse t' hr hle ih => exact timerInv_mono ih hle
  | reload today t' hr hle ih =>
    apply initA_inv
    · show (0 : Int) < 1500; norm_num
    · show (0 : Int) < 300; norm_num
    · show (0 : Int) < 900; norm_num
    · intro sn hsn
      obtain ⟨p1, p2⟩ := ih.2.2.2.2.2 sn hsn
      exact ⟨p1, by omega⟩
  | startClick hr ih => exact startA_inv ih
  | modeClick mode hr ih => exact switchModeA_inv mode (pauseA_inv ih)
  | resetClick hr ih => exact resetA_inv ih
  | timerTick hr hrun ih => exact tickA_inv ih
  | settingsOpen hr ih => exact pauseA_inv ih
  | settingsSave w sb lb hr ih => exact saveSettingsA_inv w sb lb ih
  | sessionComplete hr ih => exact completeSessionA_inv ih.1 ih.2.1 ih.2.2.1

/-- C8: in every state reachable by the engine's operations (cold start or
reload through init/restore, start, pause, reset, mode switch, tick while
running, settings save, session completion), the remaining time satisfies
0 < timeRemaining ≤ totalDuration at operation boundaries; the value a
tick displays (timeRemaining - 1) is never negative; a tick triggers the
completeSession mode transition exactly when the displayed value reaches
0 (i.e. timeRemaining was 1), and otherwise only decrements — so
timeRemaining reaches 0 exactly once per interval, at the completing
tick. -/
theorem timer_invariant_reachable (t : Int) (s : VariantA.State)
    (h : Reachable t s) :
    (0 ≤ s.timeRemaining ∧ s.timeRemaining ≤ s.totalDuration) ∧
    1 ≤ s.timeRemaining ∧
    0 ≤ s.timeRemaining - 1 ∧
    (s.timeRemaining = 1 →
      VariantA.tick s = VariantA.completeSession { s with timeRemaining := 0 }) ∧
    (2 ≤ s.timeRemaining →
      VariantA.tick s = { s with timeRemaining := s.timeRemaining - 1 }) := by
  obtain ⟨-, -, -, h4, h5, -⟩ := reachable_inv h
  refine ⟨⟨by omega, h5⟩, h4, by omega, ?_, ?_⟩
  · intro h1
    have := tickA_eq_complete s (by omega)
    rw [h1] at this
    norm_num at this
    exact this
  · intro h2
    exact tickA_eq_decrement s (by omega)

/-- C8 witness: the cold-start state is reachable and satisfies the
invariant. -/
theorem timer_invariant_reachable_witness :
    0 ≤ (VariantA.init "Sun Oct 12 2025" 0 (coldState 0 0 none none)).timeRemaining ∧
    (VariantA.init "Sun Oct 12 2025" 0 (coldState 0 0 none none)).timeRemaining ≤
      (VariantA.init "Sun Oct 12 2025" 0 (coldState 0 0 none none)).totalDuration ∧
    1 ≤ (VariantA.init "Sun Oct 12 2025" 0 (coldState 0 0 none none)).timeRemaining :=
  have h := timer_invariant_reachable 0 _
    (Reachable.cold "Sun Oct 12 2025" 0 0 0 none none)
  ⟨h.1.1, h.1.2, h.2.1⟩
